import Mathlib

/-!
Shallow embedding of `pblstudio` (an aiohttp + Mongo webtoon CMS) —
the entity model, repository and webtoon handlers of
`src/pblstudio/routes.py` — together with theorems checking the
specified properties against that embedding.

Python strings are modelled as `List Char` (so that the character-level
string methods `lower`/`replace` used by `create_slugline` are plain
structural functions), Python runtime values as the `PyVal` universe,
and Python dicts as association lists with `String` keys.  Fallible
Python code (a constructor call that can raise `TypeError`, an attribute
access that can raise `AttributeError`) is modelled with `Option` /
`Except`.
-/

/-- A Python string. -/
abbrev PyStr := List Char

/-- The universe of Python values stored in entity fields and documents:
`None`, `str`, `int`, `list`, `dict`.  (Python dataclass fields are
untyped at runtime, so entity fields range over all of `PyVal`.) -/
inductive PyVal where
  | none : PyVal
  | str : PyStr → PyVal
  | int : Int → PyVal
  | list : List PyVal → PyVal
  | dict : List (String × PyVal) → PyVal

/-- A Mongo document / Python dict: an association list keyed by strings
(Python dicts have unique keys; `from_dict` checks key sets explicitly). -/
abbrev Doc := List (String × PyVal)

mutual
/-- Python `==` on `PyVal` (used by Mongo field-equality matching). -/
def pyBeq : PyVal → PyVal → Bool
  | PyVal.none, PyVal.none => true
  | PyVal.str a, PyVal.str b => a == b
  | PyVal.int a, PyVal.int b => a == b
  | PyVal.list a, PyVal.list b => pyBeqList a b
  | PyVal.dict a, PyVal.dict b => pyBeqDict a b
  | _, _ => false

/-- Elementwise `pyBeq` on Python lists. -/
def pyBeqList : List PyVal → List PyVal → Bool
  | [], [] => true
  | a :: as, b :: bs => pyBeq a b && pyBeqList as bs
  | _, _ => false

/-- Entrywise `pyBeq` on Python dicts (as association lists). -/
def pyBeqDict : List (String × PyVal) → List (String × PyVal) → Bool
  | [], [] => true
  | a :: as, b :: bs => a.1 == b.1 && pyBeq a.2 b.2 && pyBeqDict as bs
  | _, _ => false
end

/-- `d.get(k)` / `d[k]` on a Python dict: first binding of key `k`. -/
def pyGet (d : Doc) (k : String) : Option PyVal :=
  (d.find? (fun kv => kv.1 == k)).map (fun kv => kv.2)

/-- Python truthiness of a `PyVal` (`if result:` etc.). -/
def pyTruthy : PyVal → Bool
  | PyVal.none => false
  | PyVal.str s => !s.isEmpty
  | PyVal.int n => n != 0
  | PyVal.list l => !l.isEmpty
  | PyVal.dict d => !d.isEmpty

/-- Keys of a dict are pairwise distinct (always true of a Python dict;
stated on the association-list model). -/
def distinctKeys : List String → Bool
  | [] => true
  | k :: ks => !ks.contains k && distinctKeys ks

/-- `cls(**d)` succeeds exactly when the key set of `d` is the parameter
set `req`: `sameKeys keys req` checks mutual containment. -/
def sameKeys (keys req : List String) : Bool :=
  keys.all (fun k => req.contains k) && req.all (fun k => keys.contains k)

/-- `Page` dataclass: `_id` (from `Entity`), `webtoon_id`, `page_number`,
`url`.  Fields hold arbitrary Python values, as in the source. -/
structure Page where
  _id : PyVal
  webtoon_id : PyVal
  page_number : PyVal
  url : PyVal

/-- `Page.to_dict` (inherited `Entity.to_dict`): a copy of `__dict__`,
fields in dataclass declaration order. -/
def Page.to_dict (p : Page) : Doc :=
  [("_id", p._id), ("webtoon_id", p.webtoon_id),
   ("page_number", p.page_number), ("url", p.url)]

/-- The field names of `Page`, in declaration order. -/
def pageKeys : List String := ["_id", "webtoon_id", "page_number", "url"]

/-- `Page.from_dict` (inherited `Entity.from_dict`): `Page(**a_dict)`.
Succeeds iff the keys of `a_dict` are exactly the `Page` fields;
otherwise Python raises `TypeError`, modelled as `Option.none`.
No validation of the field values occurs. -/
def Page.from_dict (a_dict : Doc) : Option Page :=
  if distinctKeys (a_dict.map Prod.fst) && sameKeys (a_dict.map Prod.fst) pageKeys then
    match pyGet a_dict "_id", pyGet a_dict "webtoon_id",
          pyGet a_dict "page_number", pyGet a_dict "url" with
    | some i, some w, some n, some u => some ⟨i, w, n, u⟩
    | _, _, _, _ => Option.none
  else Option.none

/-- `Webtoon` dataclass: `_id`, `slugline`, `title`, `author`, `pages`. -/
structure Webtoon where
  _id : PyVal
  slugline : PyVal
  title : PyVal
  author : PyVal
  pages : List Page

/-- `Webtoon.to_dict`: the base `to_dict`, with the `pages` entry
replaced by the list of each page's own dict. -/
def Webtoon.to_dict (w : Webtoon) : Doc :=
  [("_id", w._id), ("slugline", w.slugline), ("title", w.title),
   ("author", w.author),
   ("pages", PyVal.list (w.pages.map (fun p => PyVal.dict p.to_dict)))]

/-- The scalar field names of `Webtoon` (the `**a_dict` parameters after
`pages` has been popped), in declaration order. -/
def webtoonKeys : List String := ["_id", "slugline", "title", "author"]

/-- `Page.from_dict(p)` for an element `p` of the popped `pages` value:
only a dict succeeds (anything else raises in `Page(**p)`). -/
def asPageDict : PyVal → Option Page
  | PyVal.dict pd => Page.from_dict pd
  | _ => Option.none

/-- `[Page.from_dict(p) for p in pages]`: the list comprehension over the
popped `pages` list; any failing element fails the whole comprehension. -/
def load_pages : List PyVal → Option (List Page)
  | [] => some []
  | p :: ps =>
    match asPageDict p, load_pages ps with
    | some page, some pages => some (page :: pages)
    | _, _ => Option.none

/-- `Webtoon.from_dict`: `pages = a_dict.pop("pages", [])` (note the
silent `[]` default for a missing `pages` key), each element through
`Page.from_dict`, then `Webtoon(**a_dict, pages=pages)`. -/
def Webtoon.from_dict (a_dict : Doc) : Option Webtoon :=
  let pagesVal := (pyGet a_dict "pages").getD (PyVal.list [])
  let rest := a_dict.filter (fun kv => kv.1 != "pages")
  match pagesVal with
  | PyVal.list ps =>
    match load_pages ps with
    | some pages =>
      if distinctKeys (rest.map Prod.fst) && sameKeys (rest.map Prod.fst) webtoonKeys then
        match pyGet rest "_id", pyGet rest "slugline",
              pyGet rest "title", pyGet rest "author" with
        | some i, some s, some t, some a => some ⟨i, s, t, a, pages⟩
        | _, _, _, _ => Option.none
      else Option.none
    | Option.none => Option.none
  | _ => Option.none

/-- Python `str.lower()` (ASCII, as Lean's `Char.toLower`). -/
def pyLower (s : PyStr) : PyStr := s.map Char.toLower

/-- Python `str.replace(pat, rep)` for a single-character pattern. -/
def pyReplace (s : PyStr) (pat : Char) (rep : PyStr) : PyStr :=
  s.flatMap (fun c => if c = pat then rep else [c])

/-- The apostrophe character. -/
def apos : Char := Char.ofNat 39

/-- `WebtoonsHandler.create_slugline`:
`title.lower().replace(" ", "-").replace("'", "").replace("?", "").replace("!", "")`. -/
def create_slugline (title : PyStr) : PyStr :=
  pyReplace (pyReplace (pyReplace (pyReplace (pyLower title) ' ' ['-']) apos []) '?' []) '!' []

/-- The POST body of the creation form: `data.get(name)` for each of the
seven field names the handler reads; an absent field is `Option.none`
(a `MultiDict.get` miss returns Python `None`). -/
structure Form where
  title : Option PyStr
  author : Option PyStr
  page1 : Option PyStr
  page2 : Option PyStr
  page3 : Option PyStr
  page4 : Option PyStr
  page5 : Option PyStr

/-- `[data.get(f"page{count}") for count in range(1, 6)]`. -/
def page_fields (data : Form) : List (Option PyStr) :=
  [data.page1, data.page2, data.page3, data.page4, data.page5]

/-- `[url for url in ... if url != ""]`: keeps every field value that is
not the empty string — note that an absent field (`None`) also satisfies
`url != ""` and is kept. -/
def form_pages (data : Form) : List (Option PyStr) :=
  (page_fields data).filter (fun url => url != some ([] : PyStr))

/-- The Python value of a form field: the string, or `None` if absent. -/
def optStr : Option PyStr → PyVal
  | some s => PyVal.str s
  | Option.none => PyVal.none

/-- `WebtoonsHandler.validate_webtoon`: an error string for a falsy
`title`, then one for a falsy `author`. -/
def validate_webtoon (webtoon : Webtoon) : List PyStr :=
  (if pyTruthy webtoon.title then [] else [("Title is required").toList]) ++
  (if pyTruthy webtoon.author then [] else [("Author is required").toList])

/-- The `Webtoon(...)` value built inside `publish_webtoon`:
`title = data.get("title", "")`, `author = data.get("author", "")`,
slugline from `create_slugline(title)`, fresh ids from the generator
(`idgen 0` is the webtoon's `uuid4`, `idgen (i+1)` the i-th page's), and
one `Page` per kept form value with `page_number = count + 1` from
`enumerate(pages)`. `build_page` is the inner `Page(...)` constructor
call of the comprehension. -/
def build_page (idgen : Nat → PyStr) (webtoon_id : PyStr) (cu : Nat × Option PyStr) : Page :=
  { _id := PyVal.str (idgen (cu.1 + 1))
    webtoon_id := PyVal.str webtoon_id
    page_number := PyVal.int (Int.ofNat (cu.1 + 1))
    url := optStr cu.2 }

/-- The `Webtoon(...)` value built inside `publish_webtoon`. -/
def build_webtoon (idgen : Nat → PyStr) (data : Form) : Webtoon :=
  let title := data.title.getD []
  let author := data.author.getD []
  let pages := form_pages data
  let slugline := create_slugline title
  let webtoon_id := idgen 0
  { _id := PyVal.str webtoon_id
    slugline := PyVal.str slugline
    title := PyVal.str title
    author := PyVal.str author
    pages := (List.enumFrom 0 pages).map (build_page idgen webtoon_id) }

/-- Outcome of `publish_webtoon`: re-render the creation form with
errors, or raise `HTTPFound("/webtoons")` (a redirect). -/
inductive PublishResult where
  | rendered (errors : List PyStr)
  | redirected

/-- `WebtoonsHandler.publish_webtoon` against a collection state: build
the webtoon, validate; on errors re-render (no write), else
`repository.add` inserts the webtoon's dict and the handler redirects. -/
def publish_webtoon (idgen : Nat → PyStr) (data : Form) (store : List Doc) :
    List Doc × PublishResult :=
  let webtoon := build_webtoon idgen data
  let errors := validate_webtoon webtoon
  if errors ≠ [] then (store, PublishResult.rendered errors)
  else (store ++ [webtoon.to_dict], PublishResult.redirected)

/-- Python exceptions surfaced by the read paths. -/
inductive PyErr where
  | typeError
  | attributeError
deriving DecidableEq

/-- Mongo field-equality matching of `find_one(criteria)` /
`find(criteria)`: every criteria entry equals the document's value at
that key. -/
def matches_criteria (d : Doc) (criteria : Doc) : Bool :=
  criteria.all (fun kv =>
    match pyGet d kv.1 with
    | some v => pyBeq v kv.2
    | Option.none => false)

/-- `WebtoonRepository.load = Webtoon.from_dict`; a malformed document
raises `TypeError`. -/
def load_webtoon (d : Doc) : Except PyErr Webtoon :=
  match Webtoon.from_dict d with
  | some w => Except.ok w
  | Option.none => Except.error PyErr.typeError

/-- `[self.load(d) for d in ...]` over a list of documents. -/
def load_docs : List Doc → Except PyErr (List Webtoon)
  | [] => Except.ok []
  | d :: ds =>
    match load_webtoon d, load_docs ds with
    | Except.ok w, Except.ok ws => Except.ok (w :: ws)
    | Except.error e, _ => Except.error e
    | _, Except.error e => Except.error e

/-- `MongoRepository.find_all` for the webtoons collection: the cursor
object is always truthy, so this is the first 100 documents through
`load` (`cursor.to_list(length=100)`); the `return list()` branch is
dead code. -/
def find_all (store : List Doc) : Except PyErr (List Webtoon) :=
  load_docs (store.take 100)

/-- `MongoRepository.find_by` for the webtoons collection:
`find_one(criteria)` is the first matching document in natural order;
`if result:` means an empty dict is treated like a miss; a miss returns
Python `None` (`Except.ok Option.none`). -/
def find_by (store : List Doc) (criteria : Doc) : Except PyErr (Option Webtoon) :=
  match store.find? (fun d => matches_criteria d criteria) with
  | some result =>
    if result.isEmpty then Except.ok Option.none
    else
      match Webtoon.from_dict result with
      | some w => Except.ok (some w)
      | Option.none => Except.error PyErr.typeError
  | Option.none => Except.ok Option.none

/-- The `ViewablePage` namedtuple of `present_viewable_webtoon`. -/
structure ViewablePage where
  page_number : PyVal
  url : PyVal

/-- The `ViewableWebtoon` namedtuple of `present_viewable_webtoon`. -/
structure ViewableWebtoon where
  title : PyVal
  pages : List ViewablePage

/-- `present_viewable_webtoon(webtoon)`: the argument may be the `None`
returned by `find_by`, in which case `webtoon.title` raises
`AttributeError`. -/
def present_viewable_webtoon : Option Webtoon → Except PyErr ViewableWebtoon
  | some webtoon =>
    Except.ok ⟨webtoon.title,
      webtoon.pages.map (fun p => ⟨p.page_number, p.url⟩)⟩
  | Option.none => Except.error PyErr.attributeError

/-- `WebtoonsHandler.view_webtoon`: the `{id}` path segment (which holds
a slugline) is looked up with criteria `dict(slugline=slugline)`, and
the result — found webtoon or `None` — is passed to
`present_viewable_webtoon` for rendering. -/
def view_webtoon (store : List Doc) (slug : PyStr) : Except PyErr ViewableWebtoon :=
  match find_by store [("slugline", PyVal.str slug)] with
  | Except.ok w => present_viewable_webtoon w
  | Except.error e => Except.error e

/-- Number of page URL fields actually supplied (present) in the form
and non-empty — the count the specification speaks about. -/
def supplied_nonempty (data : Form) : Nat :=
  (((page_fields data).filterMap id).filter (fun s => s ≠ [])).length

/-- Spec-side per-character slug action: apostrophes, question marks and
exclamation marks are removed, spaces become hyphens, everything else is
kept.  (Used to state the slug claim the way the spec words it.) -/
def slug_step (c : Char) : PyStr :=
  if c = apos ∨ c = '?' ∨ c = '!' then []
  else if c = ' ' then ['-']
  else [c]

/-- The slug algorithm as the spec words it: the title lowercased, then
`slug_step` applied characterwise. -/
def slug_spec (title : PyStr) : PyStr :=
  (pyLower title).flatMap slug_step

/-- The title of the spec's slug example, `"Who's There?"`. -/
def whos_there : PyStr :=
  ['W', 'h', 'o'] ++ [apos] ++ ['s', ' ', 'T', 'h', 'e', 'r', 'e', '?']

/-- A deterministic stand-in for the `uuid4` supply. -/
def const_idgen : Nat → PyStr := fun _ => ['u']

/-- The spec's example submission with only `page1` and `page3` present
in the POST body (the other page fields absent, not empty). -/
def absent_fields_form : Form :=
  { title := some ("My Comic").toList
    author := some ("Jane").toList
    page1 := some ("http://x/1.png").toList
    page2 := Option.none
    page3 := some ("http://x/3.png").toList
    page4 := Option.none
    page5 := Option.none }

/-- A full submission (every field present) used to witness the amended
publish claim. -/
def full_form : Form :=
  { title := some ("My Comic").toList
    author := some ("Jane").toList
    page1 := some ("http://x/1.png").toList
    page2 := some []
    page3 := some ("http://x/3.png").toList
    page4 := some []
    page5 := some [] }

/-- A stored webtoon with slugline `"dup"` and title `"One"`. -/
def wOne : Webtoon :=
  { _id := PyVal.str ['a'], slugline := PyVal.str ("dup").toList,
    title := PyVal.str ("One").toList, author := PyVal.str ['x'], pages := [] }

/-- A second stored webtoon with the same slugline `"dup"`, title `"Two"`. -/
def wTwo : Webtoon :=
  { _id := PyVal.str ['b'], slugline := PyVal.str ("dup").toList,
    title := PyVal.str ("Two").toList, author := PyVal.str ['y'], pages := [] }

/-- A one-page submission (blank page fields present as empty strings)
used to witness the page-ownership claim. -/
def one_page_form : Form :=
  { title := some ['t'], author := some ['a'], page1 := some ['q']
    page2 := some [], page3 := some [], page4 := some []
    page5 := some [] }

/-- The single page `build_webtoon const_idgen one_page_form` creates. -/
def one_page : Page :=
  { _id := PyVal.str ['u'], webtoon_id := PyVal.str ['u'],
    page_number := PyVal.int (Int.ofNat 1), url := PyVal.str ['q'] }

/-- An entirely blank submission. -/
def blank_form : Form :=
  { title := Option.none, author := Option.none, page1 := Option.none
    page2 := Option.none, page3 := Option.none, page4 := Option.none
    page5 := Option.none }

/-! ### Slug helper lemmas -/

lemma pyReplace_cons (x : Char) (s : PyStr) (pat : Char) (rep : PyStr) :
    pyReplace (x :: s) pat rep = pyReplace [x] pat rep ++ pyReplace s pat rep := by
  simp [pyReplace]

lemma pyReplace_append (s t : PyStr) (pat : Char) (rep : PyStr) :
    pyReplace (s ++ t) pat rep = pyReplace s pat rep ++ pyReplace t pat rep := by
  simp [pyReplace]

lemma slug_chain_singleton (c : Char) :
    pyReplace (pyReplace (pyReplace (pyReplace [c] ' ' ['-']) apos []) '?' []) '!' []
      = slug_step c := by
  by_cases h1 : c = ' '
  · subst h1; decide
  · by_cases h2 : c = apos
    · subst h2; decide
    · by_cases h3 : c = '?'
      · subst h3; decide
      · by_cases h4 : c = '!'
        · subst h4; decide
        · simp [pyReplace, slug_step, h1, h2, h3, h4]

lemma create_slugline_eq_slug_spec (t : PyStr) : create_slugline t = slug_spec t := by
  induction t with
  | nil => rfl
  | cons c t ih =>
    have hc : create_slugline (c :: t)
        = pyReplace (pyReplace (pyReplace (pyReplace [Char.toLower c] ' ' ['-']) apos []) '?' []) '!' []
          ++ create_slugline t := by
      show pyReplace (pyReplace (pyReplace (pyReplace
            (Char.toLower c :: pyLower t) ' ' ['-']) apos []) '?' []) '!' [] = _
      rw [pyReplace_cons, pyReplace_append, pyReplace_append, pyReplace_append]
      rfl
    rw [hc, slug_chain_singleton, ih]
    show _ = slug_spec (c :: t)
    simp [slug_spec, pyLower]

lemma toNat_toLower (c : Char) :
    (Char.toLower c).toNat = if c.toNat ≥ 65 ∧ c.toNat ≤ 90 then c.toNat + 32 else c.toNat := by
  simp only [Char.toLower]
  by_cases h : c.toNat ≥ 65 ∧ c.toNat ≤ 90
  · rw [if_pos h, if_pos h, Char.ofNat, dif_pos (Or.inl (by omega))]
    rfl
  · rw [if_neg h, if_neg h]

lemma toLower_fixed {c : Char} (h : ¬(c.toNat ≥ 65 ∧ c.toNat ≤ 90)) : Char.toLower c = c := by
  simp only [Char.toLower]
  rw [if_neg h]

lemma toLower_toLower (c : Char) : Char.toLower (Char.toLower c) = Char.toLower c := by
  apply toLower_fixed
  rw [toNat_toLower]
  by_cases h : c.toNat ≥ 65 ∧ c.toNat ≤ 90
  · rw [if_pos h]; omega
  · rw [if_neg h]; exact h

lemma slug_spec_char {d : Char} {t : PyStr} (hd : d ∈ slug_spec t) :
    Char.toLower d = d ∧ slug_step d = [d] := by
  rw [slug_spec, List.mem_flatMap] at hd
  obtain ⟨x, hx, hdx⟩ := hd
  rw [pyLower, List.mem_map] at hx
  obtain ⟨c, _, rfl⟩ := hx
  unfold slug_step at hdx
  split at hdx
  · exact absurd hdx (by simp)
  · rename_i hbad
    split at hdx
    · rw [List.mem_singleton] at hdx
      subst hdx
      exact ⟨by decide, by decide⟩
    · rename_i hsp
      rw [List.mem_singleton] at hdx
      subst hdx
      refine ⟨toLower_toLower c, ?_⟩
      unfold slug_step
      rw [if_neg hbad, if_neg hsp]

lemma pyLower_fixed : ∀ {l : PyStr}, (∀ d ∈ l, Char.toLower d = d) → pyLower l = l := by
  intro l
  induction l with
  | nil => intro _; rfl
  | cons x xs ih =>
    intro h
    show Char.toLower x :: pyLower xs = x :: xs
    rw [h x (List.mem_cons_self x xs), ih (fun d hd => h d (List.mem_cons_of_mem x hd))]

lemma flatMap_slug_step_fixed : ∀ {l : PyStr}, (∀ d ∈ l, slug_step d = [d]) → l.flatMap slug_step = l := by
  intro l
  induction l with
  | nil => intro _; rfl
  | cons x xs ih =>
    intro h
    rw [List.flatMap_cons, h x (List.mem_cons_self x xs),
      ih (fun d hd => h d (List.mem_cons_of_mem x hd))]
    rfl

lemma slug_spec_idempotent (t : PyStr) : slug_spec (slug_spec t) = slug_spec t := by
  show (pyLower (slug_spec t)).flatMap slug_step = slug_spec t
  rw [pyLower_fixed (fun d hd => (slug_spec_char hd).1)]
  exact flatMap_slug_step_fixed (fun d hd => (slug_spec_char hd).2)

/-! ### Serialization helper lemmas -/

lemma page_roundtrip (p : Page) : Page.from_dict (Page.to_dict p) = some p := rfl

lemma load_pages_roundtrip :
    ∀ ps : List Page, load_pages (ps.map (fun p => PyVal.dict p.to_dict)) = some ps := by
  intro ps
  induction ps with
  | nil => rfl
  | cons p ps ih => simp [load_pages, asPageDict, page_roundtrip, ih]

lemma webtoon_roundtrip (w : Webtoon) : Webtoon.from_dict (Webtoon.to_dict w) = some w := by
  have h : Webtoon.from_dict (Webtoon.to_dict w)
      = (match load_pages (w.pages.map (fun p => PyVal.dict p.to_dict)) with
         | some pages => some { _id := w._id, slugline := w.slugline, title := w.title,
                                author := w.author, pages := pages }
         | Option.none => Option.none) := rfl
  rw [h, load_pages_roundtrip w.pages]

/-! ### Publish helper lemmas -/

lemma map_some_filter (l : List PyStr) :
    (l.map some).filter (fun u => u != some ([] : PyStr))
      = (l.filter (fun u => u ≠ [])).map some := by
  induction l with
  | nil => rfl
  | cons x xs ih =>
    by_cases h : x = []
    · subst h; simp [ih]
    · simp [h, ih]

lemma load_docs_length :
    ∀ (ds : List Doc) (l : List Webtoon), load_docs ds = Except.ok l → l.length = ds.length := by
  intro ds
  induction ds with
  | nil =>
    intro l h
    simp [load_docs] at h
    subst h
    rfl
  | cons d ds ih =>
    intro l h
    rw [load_docs] at h
    rcases hw : load_webtoon d with e | w <;> rw [hw] at h
    · exact absurd h (by simp)
    · rcases hds : load_docs ds with e | ws <;> rw [hds] at h
      · exact absurd h (by simp)
      · simp only [Except.ok.injEq] at h
        rw [← h]
        simp [ih ws hds]

lemma build_webtoon_pages (idgen : Nat → PyStr) (data : Form) :
    (build_webtoon idgen data).pages
      = (List.enumFrom 0 (form_pages data)).map (build_page idgen (idgen 0)) := rfl

lemma get_map_enumFrom {α β : Type} (f : Nat × α → β) :
    ∀ (L : List α) (n i : Nat) (h : i < ((List.enumFrom n L).map f).length),
      ((List.enumFrom n L).map f).get ⟨i, h⟩
        = f (n + i, L.get ⟨i, by simpa using h⟩) := by
  intro L
  induction L with
  | nil => intro n i h; simp at h
  | cons x xs ih =>
    intro n i h
    cases i with
    | zero => simp
    | succ j =>
      have hj : j < ((List.enumFrom (n + 1) xs).map f).length := by simpa using h
      have h2 := ih (n + 1) j hj
      simp only [List.enumFrom_cons, List.map_cons, List.get_cons_succ]
      rw [h2]
      have hn : n + 1 + j = n + (j + 1) := by omega
      simp [hn]

lemma build_webtoon_page_urls (idgen : Nat → PyStr) (data : Form) :
    (build_webtoon idgen data).pages.map Page.url = (form_pages data).map optStr := by
  rw [build_webtoon_pages, List.map_map]
  have h : (Page.url ∘ build_page idgen (idgen 0)) = optStr ∘ Prod.snd := rfl
  rw [h, ← List.map_map, List.enumFrom_map_snd]

lemma build_webtoon_page_numbers (idgen : Nat → PyStr) (data : Form) :
    ∀ (i : Nat) (h : i < (build_webtoon idgen data).pages.length),
      ((build_webtoon idgen data).pages.get ⟨i, h⟩).page_number
        = PyVal.int (Int.ofNat (i + 1)) := by
  intro i h
  have h2 := get_map_enumFrom (build_page idgen (idgen 0)) (form_pages data) 0 i h
  rw [show (build_webtoon idgen data).pages.get ⟨i, h⟩
      = build_page idgen (idgen 0)
          (0 + i, (form_pages data).get ⟨i, by simpa [build_webtoon_pages] using h⟩) from h2]
  simp [build_page]

lemma form_pages_all_some (t a u1 u2 u3 u4 u5 : PyStr) :
    form_pages { title := some t, author := some a, page1 := some u1, page2 := some u2,
                 page3 := some u3, page4 := some u4, page5 := some u5 }
      = ([u1, u2, u3, u4, u5].filter (fun u => u ≠ [])).map some := by
  have h := map_some_filter [u1, u2, u3, u4, u5]
  simpa [form_pages, page_fields] using h

lemma supplied_nonempty_all_some (t a u1 u2 u3 u4 u5 : PyStr) :
    supplied_nonempty { title := some t, author := some a, page1 := some u1, page2 := some u2,
                        page3 := some u3, page4 := some u4, page5 := some u5 }
      = ([u1, u2, u3, u4, u5].filter (fun u => u ≠ [])).length := by
  simp [supplied_nonempty, page_fields]

lemma validate_build_ok (idgen : Nat → PyStr) (data : Form) (t a : PyStr)
    (hdt : data.title = some t) (hda : data.author = some a)
    (ht : t ≠ []) (ha : a ≠ []) :
    validate_webtoon (build_webtoon idgen data) = [] := by
  simp [validate_webtoon, build_webtoon, pyTruthy, hdt, hda, ht, ha]

lemma publish_ok (idgen : Nat → PyStr) (data : Form) (store : List Doc)
    (hv : validate_webtoon (build_webtoon idgen data) = []) :
    publish_webtoon idgen data store
      = (store ++ [(build_webtoon idgen data).to_dict], PublishResult.redirected) := by
  simp [publish_webtoon, hv]

lemma publish_err (idgen : Nat → PyStr) (data : Form) (store : List Doc)
    (hv : validate_webtoon (build_webtoon idgen data) ≠ []) :
    publish_webtoon idgen data store
      = (store, PublishResult.rendered (validate_webtoon (build_webtoon idgen data))) := by
  simp [publish_webtoon, hv]

/-! ### View helper lemmas -/

lemma find_by_no_match (store : List Doc) (criteria : Doc)
    (h : ∀ d ∈ store, matches_criteria d criteria = false) :
    find_by store criteria = Except.ok Option.none := by
  have hf : List.find? (fun d => matches_criteria d criteria) store = Option.none :=
    List.find?_eq_none.2 (fun d hd => by rw [h d hd]; simp)
  simp only [find_by]
  rw [hf]

lemma to_dict_matches_slugline (w : Webtoon) (s : PyStr) (hw : w.slugline = PyVal.str s) :
    matches_criteria (Webtoon.to_dict w) [("slugline", PyVal.str s)] = true := by
  have h1 : pyGet (Webtoon.to_dict w) "slugline" = some w.slugline := rfl
  simp [matches_criteria, h1, hw, pyBeq]

lemma find_by_first_match (pre post : List Doc) (w : Webtoon) (s : PyStr)
    (hw : w.slugline = PyVal.str s)
    (hpre : ∀ d ∈ pre, matches_criteria d [("slugline", PyVal.str s)] = false) :
    find_by (pre ++ Webtoon.to_dict w :: post) [("slugline", PyVal.str s)]
      = Except.ok (some w) := by
  have h1 : List.find? (fun d => matches_criteria d [("slugline", PyVal.str s)]) pre
      = Option.none :=
    List.find?_eq_none.2 (fun d hd => by rw [hpre d hd]; simp)
  have h2 : List.find? (fun d => matches_criteria d [("slugline", PyVal.str s)])
      (pre ++ Webtoon.to_dict w :: post) = some (Webtoon.to_dict w) := by
    rw [List.find?_append, h1]
    simp [List.find?_cons_of_pos, to_dict_matches_slugline w s hw]
  simp only [find_by]
  rw [h2]
  have h3 : (Webtoon.to_dict w).isEmpty = false := rfl
  simp [h3, webtoon_roundtrip]

/-! ### Claim theorems -/

/-- C1 (amended): for a submission in which all five page fields are
present (blank ones as empty strings) and title and author are
non-empty, `publish_webtoon` persists exactly one webtoon (one document
appended) and redirects; that webtoon's page count equals the number of
non-empty URLs supplied, its page URLs are exactly the non-empty URLs in
order, and each page's `page_number` is its 1-based position in the page
list.  (As stated over arbitrary submissions the claim is false: an
absent page field contributes a `None` page — see the counterexample.) -/
theorem publish_webtoon_persists_nonempty_pages (idgen : Nat → PyStr) (store : List Doc)
    (data : Form) (t a u1 u2 u3 u4 u5 : PyStr)
    (hdata : data = { title := some t, author := some a, page1 := some u1, page2 := some u2,
                      page3 := some u3, page4 := some u4, page5 := some u5 })
    (ht : t ≠ []) (ha : a ≠ []) :
    publish_webtoon idgen data store
      = (store ++ [(build_webtoon idgen data).to_dict], PublishResult.redirected)
    ∧ (build_webtoon idgen data).pages.length = supplied_nonempty data
    ∧ (build_webtoon idgen data).pages.map Page.url
        = ([u1, u2, u3, u4, u5].filter (fun u => u ≠ [])).map PyVal.str
    ∧ ∀ (i : Nat) (h : i < (build_webtoon idgen data).pages.length),
        ((build_webtoon idgen data).pages.get ⟨i, h⟩).page_number
          = PyVal.int (Int.ofNat (i + 1)) := by
  subst hdata
  refine ⟨?_, ?_, ?_, ?_⟩
  · exact publish_ok _ _ _ (validate_build_ok _ _ t a rfl rfl ht ha)
  · rw [build_webtoon_pages, List.length_map, List.enumFrom_length,
      form_pages_all_some, List.length_map, supplied_nonempty_all_some]
  · rw [build_webtoon_page_urls, form_pages_all_some, List.map_map]
    rfl
  · exact build_webtoon_page_numbers idgen _

/-- Witness for `publish_webtoon_persists_nonempty_pages` at the
submission `{title: "My Comic", author: "Jane", page1: "http://x/1.png",
page3: "http://x/3.png"}` with the remaining page fields blank: two
pages are created, with the two non-empty URLs. -/
theorem publish_webtoon_persists_nonempty_pages_witness :
    (build_webtoon const_idgen full_form).pages.length = supplied_nonempty full_form
    ∧ (build_webtoon const_idgen full_form).pages.map Page.url
        = ([("http://x/1.png").toList, [], ("http://x/3.png").toList, [], []].filter
            (fun u => u ≠ [])).map PyVal.str := by
  have h := publish_webtoon_persists_nonempty_pages const_idgen [] full_form
    (("My Comic").toList) (("Jane").toList) (("http://x/1.png").toList) []
    (("http://x/3.png").toList) [] [] rfl (by decide) (by decide)
  exact ⟨h.2.1, h.2.2.1⟩

/-- C1 counterexample: the spec's example submission with `page2`,
`page4`, `page5` absent from the POST body.  `data.get("pageN")` returns
`None` for them and `None != ""` holds, so the handler keeps them: the
persisted webtoon has 5 pages (two real URLs at positions 1 and 3, and
three `None` URLs) although only 2 non-empty URLs were supplied. -/
theorem publish_webtoon_absent_fields_counterexample :
    publish_webtoon const_idgen absent_fields_form []
      = ([(build_webtoon const_idgen absent_fields_form).to_dict], PublishResult.redirected)
    ∧ (build_webtoon const_idgen absent_fields_form).pages.length = 5
    ∧ supplied_nonempty absent_fields_form = 2
    ∧ (build_webtoon const_idgen absent_fields_form).pages.map Page.url
        = [PyVal.str (("http://x/1.png").toList), PyVal.none,
           PyVal.str (("http://x/3.png").toList), PyVal.none, PyVal.none] :=
  ⟨rfl, rfl, rfl, rfl⟩

/-- C2: for every `Webtoon` `w`, `from_dict (to_dict w) = w`; the
conversion recurses into the page list, storing each page's own mapping
under the `"pages"` key. -/
theorem webtoon_dict_roundtrip (w : Webtoon) :
    Webtoon.from_dict (Webtoon.to_dict w) = some w
    ∧ pyGet (Webtoon.to_dict w) "pages"
        = some (PyVal.list (w.pages.map (fun p => PyVal.dict p.to_dict))) :=
  ⟨webtoon_roundtrip w, rfl⟩

/-- C3: a submission whose title or author is empty (or absent, read as
`""` by `data.get(..., "")`) is rejected: the collection is unchanged
and the creation form is re-rendered with a non-empty error list instead
of redirecting. -/
theorem publish_webtoon_rejects_blank (idgen : Nat → PyStr) (data : Form) (store : List Doc)
    (h : data.title.getD [] = [] ∨ data.author.getD [] = []) :
    (publish_webtoon idgen data store).1 = store
    ∧ ∃ errs, (publish_webtoon idgen data store).2 = PublishResult.rendered errs
        ∧ errs ≠ [] := by
  have hne : validate_webtoon (build_webtoon idgen data) ≠ [] := by
    rcases h with h | h
    · simp [validate_webtoon, build_webtoon, pyTruthy, h]
    · simp [validate_webtoon, build_webtoon, pyTruthy, h]
  rw [publish_err idgen data store hne]
  exact ⟨rfl, validate_webtoon (build_webtoon idgen data), rfl, hne⟩

/-- Witness for `publish_webtoon_rejects_blank` at the blank submission:
nothing is written and errors are rendered. -/
theorem publish_webtoon_rejects_blank_witness :
    (publish_webtoon const_idgen blank_form []).1 = ([] : List Doc)
    ∧ ∃ errs, (publish_webtoon const_idgen blank_form []).2 = PublishResult.rendered errs
        ∧ errs ≠ [] :=
  publish_webtoon_rejects_blank const_idgen blank_form [] (Or.inl rfl)

/-- C4 (amended): `view_webtoon` takes the `{id}` path segment (which
holds a slugline, mismatched with the parameter's name) and looks the
webtoon up by field-equality on the `"slugline"` criteria key; for a
stored webtoon `w` with `w.slugline = s` such that no earlier stored
document matches slugline `s`, `GET /webtoons/{s}` retrieves and renders
`w`.  (As stated for *every* stored webtoon the claim fails when two
stored webtoons share a slugline — the lookup returns the first match;
see the counterexample.) -/
theorem view_webtoon_renders_first_slug_match (pre post : List Doc) (w : Webtoon) (s : PyStr)
    (hw : w.slugline = PyVal.str s)
    (hpre : ∀ d ∈ pre, matches_criteria d [("slugline", PyVal.str s)] = false) :
    view_webtoon (pre ++ Webtoon.to_dict w :: post) s
      = Except.ok { title := w.title,
                    pages := w.pages.map (fun p =>
                      { page_number := p.page_number, url := p.url }) } := by
  have hfb := find_by_first_match pre post w s hw hpre
  simp only [view_webtoon]
  rw [hfb]
  rfl

/-- Witness for `view_webtoon_renders_first_slug_match`: the lone stored
webtoon `wOne` (slugline `"dup"`) is rendered by `GET /webtoons/dup`. -/
theorem view_webtoon_renders_first_slug_match_witness :
    view_webtoon [Webtoon.to_dict wOne] (("dup").toList)
      = Except.ok { title := wOne.title,
                    pages := wOne.pages.map (fun p =>
                      { page_number := p.page_number, url := p.url }) } :=
  view_webtoon_renders_first_slug_match [] [] wOne (("dup").toList) rfl (by simp)

/-- C4 counterexample: `wOne` and `wTwo` are both stored with slugline
`"dup"`; `GET /webtoons/dup` renders `wOne`, so the stored webtoon
`wTwo` is *not* retrieved and rendered even though its slugline matches
the requested path segment. -/
theorem view_webtoon_duplicate_slug_counterexample :
    Webtoon.to_dict wTwo ∈ [Webtoon.to_dict wOne, Webtoon.to_dict wTwo]
    ∧ wTwo.slugline = PyVal.str (("dup").toList)
    ∧ view_webtoon [Webtoon.to_dict wOne, Webtoon.to_dict wTwo] (("dup").toList)
        = present_viewable_webtoon (some wOne)
    ∧ present_viewable_webtoon (some wOne) ≠ present_viewable_webtoon (some wTwo) := by
  refine ⟨List.Mem.tail _ (List.Mem.head _), rfl, rfl, ?_⟩
  intro h
  have h' : (Except.ok { title := PyVal.str (("One").toList), pages := [] }
        : Except PyErr ViewableWebtoon)
      = Except.ok { title := PyVal.str (("Two").toList), pages := [] } := h
  have h2 := congrArg
    (fun x => match x with | Except.ok v => v.title | Except.error _ => PyVal.none) h'
  simp at h2

/-- C5: when no stored document matches the requested slugline,
`find_by` returns the absence value (Python `None`), and
`view_webtoon`'s presentation step applied to that absence fails with an
unexpected `AttributeError` instead of a clean not-found response. -/
theorem view_webtoon_no_match (store : List Doc) (slug : PyStr)
    (h : ∀ d ∈ store, matches_criteria d [("slugline", PyVal.str slug)] = false) :
    find_by store [("slugline", PyVal.str slug)] = Except.ok Option.none
    ∧ view_webtoon store slug = Except.error PyErr.attributeError := by
  have hfb := find_by_no_match store [("slugline", PyVal.str slug)] h
  refine ⟨hfb, ?_⟩
  simp only [view_webtoon]
  rw [hfb]
  rfl

/-- Witness for `view_webtoon_no_match` at the empty collection. -/
theorem view_webtoon_no_match_witness :
    find_by [] [("slugline", PyVal.str ['a'])] = Except.ok Option.none
    ∧ view_webtoon [] ['a'] = Except.error PyErr.attributeError :=
  view_webtoon_no_match [] ['a'] (by simp)

/-- C6: for every title, `create_slugline` returns the title lowercased
with every space replaced by a hyphen and every apostrophe, question
mark and exclamation mark removed (the characterwise `slug_spec`); in
particular `create_slugline "Who's There?" = "whos-there"`. -/
theorem create_slugline_matches_spec :
    (∀ title : PyStr, create_slugline title = slug_spec title)
    ∧ create_slugline whos_there = ("whos-there").toList :=
  ⟨create_slugline_eq_slug_spec, by decide⟩

/-- C7: `find_all` on the empty collection returns the empty list and
never an error, and any successful `find_all` returns at most 100
webtoons (the `to_list(length=100)` cap), each through the injected
`load` function. -/
theorem find_all_empty_and_capped :
    find_all [] = Except.ok []
    ∧ ∀ (store : List Doc) (l : List Webtoon),
        find_all store = Except.ok l → l.length ≤ 100 := by
  constructor
  · rfl
  · intro store l h
    rw [find_all] at h
    rw [load_docs_length (store.take 100) l h]
    simp [List.length_take]

/-- Witness for `find_all_empty_and_capped` at the empty collection. -/
theorem find_all_empty_and_capped_witness :
    find_all [] = Except.ok [] ∧ ([] : List Webtoon).length ≤ 100 :=
  ⟨find_all_empty_and_capped.1, find_all_empty_and_capped.2 [] [] rfl⟩

/-- C8: every page of a webtoon constructed by `publish_webtoon` has
`webtoon_id` equal to the owning webtoon's `_id` (established at
creation; the embedding has no update operation, as the source has no
update path). -/
theorem build_webtoon_page_owner (idgen : Nat → PyStr) (data : Form) :
    ∀ p ∈ (build_webtoon idgen data).pages,
      p.webtoon_id = (build_webtoon idgen data)._id := by
  intro p hp
  rw [build_webtoon_pages, List.mem_map] at hp
  obtain ⟨cu, _, rfl⟩ := hp
  rfl

/-- Witness for `build_webtoon_page_owner` at a one-page submission. -/
theorem build_webtoon_page_owner_witness :
    Page.webtoon_id one_page = Webtoon._id (build_webtoon const_idgen one_page_form) :=
  build_webtoon_page_owner const_idgen one_page_form one_page
    (by show one_page ∈ [one_page]; exact List.Mem.head _)

/-- C9 (amended): `from_dict` performs no validation and a mapping
missing any of the required constructor fields fails with a
missing-field error (`TypeError`), for `Page` and for `Webtoon`'s scalar
fields — with one exception the original claim misses: `Webtoon`'s
`pages` key is popped with default `[]`, so a mapping missing `pages`
silently yields a webtoon with an empty page list (see the
counterexample). -/
theorem from_dict_missing_required_key :
    (∀ (d : Doc) (k : String), k ∈ pageKeys → k ∉ d.map Prod.fst →
        Page.from_dict d = Option.none)
    ∧ (∀ (d : Doc) (k : String), k ∈ webtoonKeys → k ∉ d.map Prod.fst →
        Webtoon.from_dict d = Option.none)
    ∧ ∀ i s t a : PyVal,
        Webtoon.from_dict [("_id", i), ("slugline", s), ("title", t), ("author", a)]
          = some { _id := i, slugline := s, title := t, author := a, pages := [] } := by
  refine ⟨?_, ?_, fun i s t a => rfl⟩
  · intro d k hk hkd
    have hs : sameKeys (d.map Prod.fst) pageKeys = false := by
      unfold sameKeys
      rw [Bool.and_eq_false_iff]
      right
      rw [List.all_eq_false]
      exact ⟨k, hk, by simpa [List.contains] using hkd⟩
    simp [Page.from_dict, hs]
  · intro d k hk hkd
    have hk2 : k ∉ (d.filter (fun kv => kv.1 != "pages")).map Prod.fst := by
      intro hmem
      rw [List.mem_map] at hmem
      obtain ⟨kv, hkv, rfl⟩ := hmem
      rw [List.mem_filter] at hkv
      exact hkd (List.mem_map.2 ⟨kv, hkv.1, rfl⟩)
    have hs : sameKeys ((d.filter (fun kv => kv.1 != "pages")).map Prod.fst) webtoonKeys
        = false := by
      unfold sameKeys
      rw [Bool.and_eq_false_iff]
      right
      rw [List.all_eq_false]
      exact ⟨k, hk, by simpa [List.contains] using hk2⟩
    simp only [Webtoon.from_dict]
    split
    · split
      · simp [hs]
      · rfl
    · rfl

/-- Witness for `from_dict_missing_required_key`: the empty mapping
fails to reconstruct a `Page`. -/
theorem from_dict_missing_required_key_witness :
    Page.from_dict [] = Option.none :=
  from_dict_missing_required_key.1 [] "_id" (by decide) (by simp)

/-- C9 counterexample: a `Webtoon` mapping missing the `pages` field is
not rejected — `from_dict` silently defaults the absent field to an
empty page list. -/
theorem from_dict_missing_pages_defaults :
    Webtoon.from_dict
        [("_id", PyVal.str ['w']), ("slugline", PyVal.str ['s']),
         ("title", PyVal.str ['t']), ("author", PyVal.str ['a'])]
      = some { _id := PyVal.str ['w'], slugline := PyVal.str ['s'],
               title := PyVal.str ['t'], author := PyVal.str ['a'], pages := [] } := rfl

/-- C10: `create_slugline` is idempotent — applying the slug derivation
to an already-derived slugline leaves it unchanged. -/
theorem create_slugline_idempotent (t : PyStr) :
    create_slugline (create_slugline t) = create_slugline t := by
  rw [create_slugline_eq_slug_spec, create_slugline_eq_slug_spec, slug_spec_idempotent]
